import Mathlib

/-!
Shallow embedding of the SoundCloud playlist manager service
(`app/sc_playlist_manager.py` and `app/routes.py`).

The external SoundCloud client library is modelled as an explicit `Client`
record of fallible operations (`Except String` results stand for calls that
may raise).  Python exceptions raised by the manager are modelled by the
`PyError` type; a manager method that may raise returns `Except PyError _`,
and a method that flattens failures into an `ApiResponse` envelope returns
the envelope directly.  Outgoing playlist-creation calls to the external
client are recorded as an explicit `List PostCall` trace so that claims of
the form "no external creation call is made" are statable.
-/

namespace SoundcloudApi

/-- `ApiResponse` (app/api_responses/api_response.py): the uniform
`{success, message}` result envelope. -/
structure ApiResponse where
  success : Bool
  message : String
  deriving DecidableEq, Repr

/-- `PlaylistVisibility` (sc_playlist_manager.py): string enum with
values `"private"` and `"public"`. -/
inductive PlaylistVisibility where
  | priv
  | pub
  deriving DecidableEq, Repr

/-- The `.value` of the Python string enum. -/
def PlaylistVisibility.value : PlaylistVisibility → String
  | .priv => "private"
  | .pub => "public"

/-- `PlaylistCreateOptions` (sc_playlist_manager.py lines 12-16):
dataclass with defaults `visibility = PRIVATE`, `track_limit = 500`. -/
structure PlaylistCreateOptions where
  title : String
  visibility : PlaylistVisibility := PlaylistVisibility.priv
  track_limit : Int := 500
  deriving DecidableEq, Repr

/-- Python exceptions observed in this module.  `playlistManagerError`,
`trackLimitExceededError` and `invalidTokenError` embed the exception
classes declared in sc_playlist_manager.py (the latter two are subclasses
of `PlaylistManagerError`); `nameError` and `otherError` stand for
exceptions that are not `PlaylistManagerError` instances. -/
inductive PyError where
  | playlistManagerError (msg : String)
  | trackLimitExceededError (msg : String)
  | invalidTokenError (msg : String)
  | nameError (msg : String)
  | otherError (msg : String)
  deriving DecidableEq, Repr

/-- Python `str(e)`: the message an exception carries. -/
def PyError.msg : PyError → String
  | .playlistManagerError m => m
  | .trackLimitExceededError m => m
  | .invalidTokenError m => m
  | .nameError m => m
  | .otherError m => m

/-- Whether the exception is an instance of `PlaylistManagerError`
(`TrackLimitExceededError` and `InvalidTokenError` are subclasses). -/
def PyError.isDomainError : PyError → Bool
  | .playlistManagerError _ => true
  | .trackLimitExceededError _ => true
  | .invalidTokenError _ => true
  | .nameError _ => false
  | .otherError _ => false

/-- One `post_playlist` call to the external client (its arguments). -/
structure PostCall where
  visibility : String
  title : String
  trackIds : List Int
  deriving DecidableEq, Repr

/-- The external SoundCloud client library, as an opaque capability:
each field is one call that may raise (an `.error` carries `str(e)`). -/
structure Client where
  getPlaylistTracks : Int → Except String (List Int)
  postPlaylist : PostCall → Except String Unit
  deletePlaylistCall : Int → Except String Unit
  getMeId : Except String Int
  getUserRecord : Int → Except String Int
  getUserPlaylists : Int → Except String (List Int)
  getUserTracks : Int → Except String (List Int)

/-- Python `set(xs)` built from a list: the deduplicated element list. -/
def pySet (xs : List Int) : List Int := xs.dedup

/-- Python `s.update(xs)` on a set `s`: the set now holds the union. -/
def pySetUpdate (s xs : List Int) : List Int := (s ++ xs).dedup

/-- `_get_track_ids` (sc_playlist_manager.py lines 62-76): fetch a
playlist's track ids, wrapping any client failure in
`PlaylistManagerError`. -/
def get_track_ids (client : Client) (playlist_id : Int) : Except PyError (List Int) :=
  match client.getPlaylistTracks playlist_id with
  | .ok tracks => .ok tracks
  | .error e => .error (.playlistManagerError ("Failed to get track IDs: " ++ e))

/-- The message of `TrackLimitExceededError` raised by `_create_playlist`. -/
def trackLimitMsg (n : Nat) (lim : Int) : String :=
  "Track limit exceeded: " ++ toString n ++ " tracks (limit: " ++ toString lim ++ ")"

/-- `_create_playlist` (sc_playlist_manager.py lines 78-111): raises
`TrackLimitExceededError` when `len(track_ids) > options.track_limit`
(before any external call); otherwise posts the playlist and flattens the
outcome into an `ApiResponse`.  The second component records the
`post_playlist` calls made. -/
def create_playlist (client : Client) (options : PlaylistCreateOptions)
    (track_ids : List Int) : Except PyError ApiResponse × List PostCall :=
  if (track_ids.length : Int) > options.track_limit then
    (.error (.trackLimitExceededError (trackLimitMsg track_ids.length options.track_limit)), [])
  else
    let call : PostCall := ⟨options.visibility.value, options.title, track_ids⟩
    match client.postPlaylist call with
    | .ok _ =>
      (.ok ⟨true, "Playlist created successfully. Check your playlists :)"⟩, [call])
    | .error e =>
      (.ok ⟨false, "Failed to create playlist: " ++ e⟩, [call])

/-- The `for playlist_id in played_playlist_ids` loop of
`create_unplayed_tracks_playlist` (and the whole body of
`merge_playlists`'s loop): accumulate the union of the playlists' track
sets into `acc`, propagating the first fetch failure. -/
def collectPlayed (client : Client) (acc : List Int) : List Int → Except PyError (List Int)
  | [] => .ok acc
  | pid :: rest =>
    match get_track_ids client pid with
    | .error e => .error e
    | .ok t => collectPlayed client (pySetUpdate acc t) rest

/-- The track-set computation of `create_unplayed_tracks_playlist`
(sc_playlist_manager.py lines 179-186): `base_tracks - played_tracks`
as a list. -/
def unplayedTracksOf (client : Client) (base_playlist_id : Int)
    (played_playlist_ids : List Int) : Except PyError (List Int) :=
  match get_track_ids client base_playlist_id with
  | .error e => .error e
  | .ok base =>
    match collectPlayed client [] played_playlist_ids with
    | .error e => .error e
    | .ok played => .ok ((pySet base).filter (fun t => decide (t ∉ played)))

/-- `create_unplayed_tracks_playlist` (sc_playlist_manager.py lines
162-193): derives the unplayed track set and creates a playlist from it;
every exception, `TrackLimitExceededError` included, is flattened into a
failure envelope by the generic `except Exception` clause. -/
def create_unplayed_tracks_playlist (client : Client) (base_playlist_id : Int)
    (played_playlist_ids : List Int) (options : PlaylistCreateOptions) :
    ApiResponse × List PostCall :=
  match unplayedTracksOf client base_playlist_id played_playlist_ids with
  | .error e =>
    (⟨false, "Failed to create unplayed tracks playlist: " ++ e.msg⟩, [])
  | .ok unplayed =>
    match create_playlist client options unplayed with
    | (.ok resp, calls) => (resp, calls)
    | (.error e, calls) =>
      (⟨false, "Failed to create unplayed tracks playlist: " ++ e.msg⟩, calls)

/-- The track-set computation of `merge_playlists` (sc_playlist_manager.py
lines 210-214): union of all the given playlists' track sets. -/
def mergedTracksOf (client : Client) (playlist_ids : List Int) :
    Except PyError (List Int) :=
  collectPlayed client [] playlist_ids

/-- `merge_playlists` (sc_playlist_manager.py lines 195-225): merges the
playlists and creates the result; `TrackLimitExceededError` is caught
first (message `"playlistTrackLimitExceeded"`), every other exception by
the generic clause. -/
def merge_playlists (client : Client) (playlist_ids : List Int)
    (options : PlaylistCreateOptions) : ApiResponse × List PostCall :=
  match mergedTracksOf client playlist_ids with
  | .error (.trackLimitExceededError _) => (⟨false, "playlistTrackLimitExceeded"⟩, [])
  | .error e => (⟨false, "Failed to merge playlists: " ++ e.msg⟩, [])
  | .ok all_tracks =>
    match create_playlist client options all_tracks with
    | (.ok resp, calls) => (resp, calls)
    | (.error (.trackLimitExceededError _), calls) =>
      (⟨false, "playlistTrackLimitExceeded"⟩, calls)
    | (.error e, calls) =>
      (⟨false, "Failed to merge playlists: " ++ e.msg⟩, calls)

/-- Python `str(NameError)` for the unimported `random` module. -/
def nameErrorRandomMsg : String := "name \x27random\x27 is not defined"

/-- The overflow-rejection message of `create_random_playlist`. -/
def randomOverflowMsg (track_count : Int) (available : Nat) : String :=
  "Requested track count (" ++ toString track_count ++ ") exceeds available tracks ("
    ++ toString available ++ ")"

/-- `create_random_playlist` (sc_playlist_manager.py lines 227-262), as
written: fetches the base playlist's tracks, rejects
`track_count > len(track_ids)` with an explicit failure envelope before
any further work, and then calls `random.shuffle` — but the module never
imports `random`, so that call raises `NameError`, which the generic
`except Exception` clause flattens into a failure envelope. -/
def create_random_playlist (client : Client) (base_playlist_id : Int)
    (track_count : Int) (options : PlaylistCreateOptions) :
    ApiResponse × List PostCall :=
  match get_track_ids client base_playlist_id with
  | .error e => (⟨false, "Failed to create random playlist: " ++ e.msg⟩, [])
  | .ok track_ids =>
    if track_count > (track_ids.length : Int) then
      (⟨false, randomOverflowMsg track_count track_ids.length⟩, [])
    else
      (⟨false, "Failed to create random playlist: " ++ nameErrorRandomMsg⟩, [])

/-- `create_random_playlist` as evidently intended (docstring, endpoint
and spec), i.e. with `import random` supplied: the shuffle is passed in
as an explicit reordering function applied to the fetched list. -/
def create_random_playlist_fixed (client : Client) (shuffle : List Int → List Int)
    (base_playlist_id : Int) (track_count : Int) (options : PlaylistCreateOptions) :
    ApiResponse × List PostCall :=
  match get_track_ids client base_playlist_id with
  | .error e => (⟨false, "Failed to create random playlist: " ++ e.msg⟩, [])
  | .ok track_ids =>
    if track_count > (track_ids.length : Int) then
      (⟨false, randomOverflowMsg track_count track_ids.length⟩, [])
    else
      let selected_tracks := (shuffle track_ids).take track_count.toNat
      match create_playlist client options selected_tracks with
      | (.ok resp, calls) => (resp, calls)
      | (.error e, calls) =>
        (⟨false, "Failed to create random playlist: " ++ e.msg⟩, calls)

/-- `delete_playlist` (sc_playlist_manager.py lines 264-284). -/
def delete_playlist (client : Client) (playlist_id : Int) :
    ApiResponse × List PostCall :=
  match client.deletePlaylistCall playlist_id with
  | .ok _ => (⟨true, "Playlist " ++ toString playlist_id ++ " deleted successfully"⟩, [])
  | .error e => (⟨false, "Failed to delete playlist: " ++ e⟩, [])

/-- `get_user` (sc_playlist_manager.py lines 113-128): only the returned
user's id is consumed downstream, so the user record is its id. -/
def get_user (client : Client) (user_id : Option Int) : Except PyError Int :=
  match user_id with
  | none =>
    match client.getMeId with
    | .ok u => .ok u
    | .error e => .error (.playlistManagerError ("Failed to get user: " ++ e))
  | some uid =>
    match client.getUserRecord uid with
    | .ok u => .ok u
    | .error e => .error (.playlistManagerError ("Failed to get user: " ++ e))

/-- The Python expression `user_id or self.get_user().id` of lines 141 and
157: `None` and `0` are both falsy, so either falls through to the current
user's id. -/
def truthyResolve (client : Client) (user_id : Option Int) : Except PyError Int :=
  match user_id with
  | some u => if u = 0 then get_user client none else .ok u
  | none => get_user client none

/-- `get_playlists` (sc_playlist_manager.py lines 130-144); playlist
summaries are opaque, kept as ids. -/
def get_playlists (client : Client) (user_id : Option Int) :
    Except PyError (List Int) :=
  match truthyResolve client user_id with
  | .error e => .error (.playlistManagerError ("Failed to get playlists: " ++ e.msg))
  | .ok uid =>
    match client.getUserPlaylists uid with
    | .ok ps => .ok ps
    | .error e => .error (.playlistManagerError ("Failed to get playlists: " ++ e))

/-- `get_tracks` (sc_playlist_manager.py lines 146-160). -/
def get_tracks (client : Client) (user_id : Option Int) :
    Except PyError (List Int) :=
  match truthyResolve client user_id with
  | .error e => .error (.playlistManagerError ("Failed to get tracks: " ++ e.msg))
  | .ok uid =>
    match client.getUserTracks uid with
    | .ok ts => .ok ts
    | .error e => .error (.playlistManagerError ("Failed to get tracks: " ++ e))

/-- The result of an HTTP endpoint: a value, or an `HTTPException`-style
status/detail pair. -/
inductive HttpResult (α : Type) where
  | ok (value : α)
  | httpError (status : Nat) (detail : String)
  deriving DecidableEq, Repr

/-- The token environment seen by `_validate_token`
(sc_playlist_manager.py lines 53-60): whether constructing the throwaway
client or calling `is_auth_token_valid` raises, and the validity answer. -/
structure TokenEnv where
  constructRaises : Option String
  tokenValid : Bool

/-- `_validate_token` (sc_playlist_manager.py lines 53-60).  Note that the
`raise InvalidTokenError("Invalid SoundCloud authentication token")` inside
the `try` block is itself caught by the `except Exception` clause and
re-wrapped, so the `InvalidTokenError` that escapes always has a message
starting `"Failed to validate token: "`. -/
def validate_token_check (env : TokenEnv) : Except PyError Unit :=
  match env.constructRaises with
  | some e => .error (.invalidTokenError ("Failed to validate token: " ++ e))
  | none =>
    if env.tokenValid then .ok ()
    else
      .error (.invalidTokenError
        ("Failed to validate token: " ++ "Invalid SoundCloud authentication token"))

/-- `get_playlist_manager` (routes.py lines 20-31): constructs a manager
(which validates the token first); `InvalidTokenError` becomes HTTP 401,
any other construction failure HTTP 500. -/
def get_playlist_manager (env : TokenEnv) : HttpResult Unit :=
  match validate_token_check env with
  | .ok _ => .ok ()
  | .error (.invalidTokenError m) => .httpError 401 m
  | .error e => .httpError 500 e.msg

/-- The shared shape of every endpoint in routes.py that runs a manager
operation: the `Depends(get_playlist_manager)` dependency resolves (and so
validates the token) before the handler body runs; the handler catches
`TrackLimitExceededError` and `PlaylistManagerError` as HTTP 400; an
exception of any other class escapes the handler and the hosting framework
(FastAPI) turns it into an HTTP 500 response. -/
def runEndpoint (env : TokenEnv) (op : Unit → Except PyError ApiResponse) :
    HttpResult ApiResponse :=
  match get_playlist_manager env with
  | .httpError s d => .httpError s d
  | .ok _ =>
    match op () with
    | .ok r => .ok r
    | .error e =>
      if e.isDomainError then .httpError 400 e.msg
      else .httpError 500 e.msg

/-- How the POST handlers of routes.py (lines 106-166) build
`PlaylistCreateOptions`: only `title` and `visibility` are passed, so
`track_limit` keeps its dataclass default. -/
def handlerOptions (title : String) (visibility : PlaylistVisibility) :
    PlaylistCreateOptions :=
  { title := title, visibility := visibility }

/-- A concrete client used to instantiate theorems: playlist 1 holds
tracks [1,2,3,4,5], playlist 2 holds [2,4], playlist 4 holds [1,2],
playlist 5 holds [2,3]; other playlists are missing; posting and deleting
playlist 7 succeed. -/
def testClient : Client where
  getPlaylistTracks := fun pid =>
    if pid = 1 then .ok [1, 2, 3, 4, 5]
    else if pid = 2 then .ok [2, 4]
    else if pid = 4 then .ok [1, 2]
    else if pid = 5 then .ok [2, 3]
    else .error "playlist not found"
  postPlaylist := fun _ => .ok ()
  deletePlaylistCall := fun pid => if pid = 7 then .ok () else .error "no such playlist"
  getMeId := .ok 42
  getUserRecord := fun u => .ok u
  getUserPlaylists := fun u => if u = 42 then .ok [101, 102] else .ok [u + 1000]
  getUserTracks := fun u => if u = 42 then .ok [201] else .ok [u + 2000]

/-! ## Helper lemmas -/

theorem mem_pySetUpdate {s t : List Int} {x : Int} :
    x ∈ pySetUpdate s t ↔ x ∈ s ∨ x ∈ t := by
  simp [pySetUpdate, List.mem_dedup, List.mem_append]

theorem collectPlayed_ok_mem (client : Client) (pids : List Int) :
    ∀ (acc res : List Int), collectPlayed client acc pids = .ok res →
      ∀ x : Int, (x ∈ res ↔ x ∈ acc ∨ ∃ pid ∈ pids, ∃ tr,
        get_track_ids client pid = .ok tr ∧ x ∈ tr) := by
  induction pids with
  | nil =>
    intro acc res h x
    unfold collectPlayed at h
    injection h with h
    subst h
    simp
  | cons pid rest ih =>
    intro acc res h x
    unfold collectPlayed at h
    cases heq : get_track_ids client pid with
    | error e => rw [heq] at h; cases h
    | ok t =>
      rw [heq] at h
      rw [ih (pySetUpdate acc t) res h x, mem_pySetUpdate]
      constructor
      · rintro ((hx | hx) | ⟨p, hp, tr, htr, hx⟩)
        · exact Or.inl hx
        · exact Or.inr ⟨pid, List.mem_cons_self _ _, t, heq, hx⟩
        · exact Or.inr ⟨p, List.mem_cons_of_mem _ hp, tr, htr, hx⟩
      · rintro (hx | ⟨p, hp, tr, htr, hx⟩)
        · exact Or.inl (Or.inl hx)
        · rcases List.mem_cons.mp hp with rfl | hp
          · rw [heq] at htr
            injection htr with htr
            subst htr
            exact Or.inl (Or.inr hx)
          · exact Or.inr ⟨p, hp, tr, htr, hx⟩

theorem collectPlayed_ok_nodup (client : Client) (pids : List Int) :
    ∀ (acc res : List Int), acc.Nodup → collectPlayed client acc pids = .ok res →
      res.Nodup := by
  induction pids with
  | nil =>
    intro acc res hacc h
    unfold collectPlayed at h
    injection h with h
    subst h
    exact hacc
  | cons pid rest ih =>
    intro acc res hacc h
    unfold collectPlayed at h
    cases heq : get_track_ids client pid with
    | error e => rw [heq] at h; cases h
    | ok t =>
      rw [heq] at h
      exact ih (pySetUpdate acc t) res (List.nodup_dedup _) h

theorem unplayedTracksOf_ok (client : Client) {baseId : Int} {playedIds : List Int}
    {base unplayed : List Int}
    (hbase : get_track_ids client baseId = .ok base)
    (h : unplayedTracksOf client baseId playedIds = .ok unplayed) :
    ∃ played, collectPlayed client [] playedIds = .ok played ∧
      unplayed = (pySet base).filter (fun t => decide (t ∉ played)) := by
  unfold unplayedTracksOf at h
  rw [hbase] at h
  cases hplayed : collectPlayed client [] playedIds with
  | error e => rw [hplayed] at h; cases h
  | ok played =>
    rw [hplayed] at h
    injection h with h
    exact ⟨played, rfl, h.symm⟩

/-! ## Claims -/

/-- C1: `create_unplayed_tracks_playlist` derives its candidate track set
as the base playlist's track set minus the union of the played playlists'
track sets: every derived track is in the base set, no derived track is in
any played playlist's track set, and membership in the derived set is
exactly membership in the base set outside every played set. -/
theorem c1_unplayed_is_base_minus_played (client : Client) (baseId : Int)
    (playedIds : List Int) (base unplayed : List Int)
    (hbase : get_track_ids client baseId = .ok base)
    (h : unplayedTracksOf client baseId playedIds = .ok unplayed) :
    (∀ t ∈ unplayed, t ∈ base) ∧
    (∀ pid ∈ playedIds, ∀ tr, get_track_ids client pid = .ok tr →
      ∀ t ∈ unplayed, t ∉ tr) ∧
    (∀ t, t ∈ unplayed ↔ (t ∈ base ∧ ∀ pid ∈ playedIds, ∀ tr,
      get_track_ids client pid = .ok tr → t ∉ tr)) := by
  obtain ⟨played, hplayed, rfl⟩ := unplayedTracksOf_ok client hbase h
  have hmem : ∀ x : Int, (x ∈ played ↔ ∃ pid ∈ playedIds, ∃ tr,
      get_track_ids client pid = .ok tr ∧ x ∈ tr) := by
    intro x
    rw [collectPlayed_ok_mem client playedIds [] played hplayed x]
    simp
  have hfilter : ∀ t : Int,
      (t ∈ (pySet base).filter (fun t => decide (t ∉ played)) ↔ t ∈ base ∧ t ∉ played) := by
    intro t
    simp [List.mem_filter, pySet, List.mem_dedup]
  refine ⟨?_, ?_, ?_⟩
  · intro t ht
    exact ((hfilter t).mp ht).1
  · intro pid hpid tr htr t ht htmem
    exact ((hfilter t).mp ht).2 ((hmem t).mpr ⟨pid, hpid, tr, htr, htmem⟩)
  · intro t
    rw [hfilter t]
    constructor
    · rintro ⟨hb, hnp⟩
      refine ⟨hb, fun pid hpid tr htr htmem => hnp ((hmem t).mpr ⟨pid, hpid, tr, htr, htmem⟩)⟩
    · rintro ⟨hb, hall⟩
      refine ⟨hb, fun hp => ?_⟩
      obtain ⟨pid, hpid, tr, htr, htmem⟩ := (hmem t).mp hp
      exact hall pid hpid tr htr htmem

/-- C1 witness: base playlist 1 has tracks [1,2,3,4,5], played playlist 2
has [2,4]; the derived set is [1,3,5]. -/
theorem c1_witness :
    (∀ t ∈ ([1, 3, 5] : List Int), t ∈ ([1, 2, 3, 4, 5] : List Int)) ∧
    (∀ pid ∈ ([2] : List Int), ∀ tr, get_track_ids testClient pid = .ok tr →
      ∀ t ∈ ([1, 3, 5] : List Int), t ∉ tr) ∧
    (∀ t, t ∈ ([1, 3, 5] : List Int) ↔ (t ∈ ([1, 2, 3, 4, 5] : List Int) ∧
      ∀ pid ∈ ([2] : List Int), ∀ tr, get_track_ids testClient pid = .ok tr →
        t ∉ tr)) :=
  c1_unplayed_is_base_minus_played testClient 1 [2] [1, 2, 3, 4, 5] [1, 3, 5] rfl rfl

/-- C7: with an empty list of played playlists, the derived unplayed set
is exactly the base playlist's track set. -/
theorem c7_unplayed_empty_played (client : Client) (baseId : Int) (base : List Int)
    (hbase : get_track_ids client baseId = .ok base) :
    ∃ l, unplayedTracksOf client baseId [] = .ok l ∧ ∀ t, (t ∈ l ↔ t ∈ base) := by
  refine ⟨pySet base, ?_, ?_⟩
  · unfold unplayedTracksOf
    rw [hbase]
    unfold collectPlayed
    simp
  · intro t
    simp [pySet, List.mem_dedup]

/-- C7 witness: unplayed(playlist 1, []) holds exactly the tracks of
playlist 1. -/
theorem c7_witness :
    ∃ l, unplayedTracksOf testClient 1 [] = .ok l ∧
      ∀ t, (t ∈ l ↔ t ∈ ([1, 2, 3, 4, 5] : List Int)) :=
  c7_unplayed_empty_played testClient 1 [1, 2, 3, 4, 5] rfl

/-- C4: `merge_playlists` computes the union of all the given playlists'
track sets, with no duplicate track ids in the result; merging a single
playlist with itself yields exactly that playlist's track set. -/
theorem c4_merge_is_union (client : Client) (playlistIds : List Int)
    (allTracks : List Int)
    (h : mergedTracksOf client playlistIds = .ok allTracks) :
    allTracks.Nodup ∧
    (∀ t, t ∈ allTracks ↔ ∃ pid ∈ playlistIds, ∃ tr,
      get_track_ids client pid = .ok tr ∧ t ∈ tr) ∧
    (∀ p tr, playlistIds = [p, p] → get_track_ids client p = .ok tr →
      ∀ t, (t ∈ allTracks ↔ t ∈ tr)) := by
  unfold mergedTracksOf at h
  have hmem : ∀ x : Int, (x ∈ allTracks ↔ ∃ pid ∈ playlistIds, ∃ tr,
      get_track_ids client pid = .ok tr ∧ x ∈ tr) := by
    intro x
    rw [collectPlayed_ok_mem client playlistIds [] allTracks h x]
    simp
  refine ⟨collectPlayed_ok_nodup client playlistIds [] allTracks List.nodup_nil h,
    hmem, ?_⟩
  rintro p tr rfl htr t
  rw [hmem t]
  constructor
  · rintro ⟨pid, hpid, tr2, htr2, htmem⟩
    rcases List.mem_cons.mp hpid with rfl | hpid
    · rw [htr] at htr2
      injection htr2 with htr2
      subst htr2
      exact htmem
    · rcases List.mem_cons.mp hpid with rfl | hpid
      · rw [htr] at htr2
        injection htr2 with htr2
        subst htr2
        exact htmem
      · cases hpid
  · intro htmem
    exact ⟨p, List.mem_cons_self _ _, tr, htr, htmem⟩

/-- C4 witness: merging playlists 4 ([1,2]) and 5 ([2,3]) yields the
union {1,2,3} without duplicates, and [4,4] merges to playlist 4's set. -/
theorem c4_witness :
    (([1, 2, 3] : List Int).Nodup ∧
      (∀ t, t ∈ ([1, 2, 3] : List Int) ↔ ∃ pid ∈ ([4, 5] : List Int), ∃ tr,
        get_track_ids testClient pid = .ok tr ∧ t ∈ tr) ∧
      (∀ p tr, ([4, 5] : List Int) = [p, p] → get_track_ids testClient p = .ok tr →
        ∀ t, (t ∈ ([1, 2, 3] : List Int) ↔ t ∈ tr))) ∧
    (∀ p tr, ([4, 4] : List Int) = [p, p] → get_track_ids testClient p = .ok tr →
      ∀ t, (t ∈ ([1, 2] : List Int) ↔ t ∈ tr)) :=
  ⟨c4_merge_is_union testClient [4, 5] [1, 2, 3] rfl,
   (c4_merge_is_union testClient [4, 4] [1, 2] rfl).2.2⟩

/-- C2: the claim says the selection step of `create_random_playlist`
produces exactly k distinct track ids drawn from the fetched list and
passes them to playlist creation.  The module never imports `random`, so
`random.shuffle` raises `NameError` and the code, as written, flattens the
call into a failure envelope without selecting anything or calling the
external client: at base playlist 1 (tracks [1,2,3,4,5]) and k = 3 the
result is the NameError envelope with an empty call trace.  With the
missing import supplied (`create_random_playlist_fixed`, shuffle taken as
the identity reordering), the intended behavior holds at the same input:
exactly 3 distinct ids from the list are passed to creation. -/
theorem c2_random_selection_never_runs :
    create_random_playlist testClient 1 3 (handlerOptions "Random" PlaylistVisibility.priv)
      = (⟨false, "Failed to create random playlist: " ++ nameErrorRandomMsg⟩, []) ∧
    (create_random_playlist_fixed testClient id 1 3
        (handlerOptions "Random" PlaylistVisibility.priv)).2
      = [⟨"private", "Random", [1, 2, 3]⟩] ∧
    ([1, 2, 3] : List Int).Nodup ∧
    ([1, 2, 3] : List Int).length = 3 ∧
    (∀ t ∈ ([1, 2, 3] : List Int), t ∈ ([1, 2, 3, 4, 5] : List Int)) := by
  refine ⟨rfl, rfl, by decide, rfl, by decide⟩

/-- C3: `_create_playlist` raises a track-limit error exactly when
`len(track_ids) > options.track_limit` — and then makes no external call;
otherwise it makes exactly one external creation call with these track ids
and returns an `ApiResponse` envelope (never an exception), whatever the
external client does. -/
theorem c3_create_playlist_limit (client : Client) (options : PlaylistCreateOptions)
    (track_ids : List Int) :
    ((track_ids.length : Int) > options.track_limit →
      create_playlist client options track_ids
        = (.error (.trackLimitExceededError
            (trackLimitMsg track_ids.length options.track_limit)), [])) ∧
    ((track_ids.length : Int) ≤ options.track_limit →
      ∃ r : ApiResponse, create_playlist client options track_ids
        = (.ok r, [⟨options.visibility.value, options.title, track_ids⟩])) := by
  constructor
  · intro hgt
    unfold create_playlist
    rw [if_pos hgt]
  · intro hle
    unfold create_playlist
    rw [if_neg (not_lt.mpr hle)]
    cases h : client.postPlaylist ⟨options.visibility.value, options.title, track_ids⟩ with
    | ok u =>
      refine ⟨⟨true, "Playlist created successfully. Check your playlists :)"⟩, ?_⟩
      simp only [h]
    | error e =>
      refine ⟨⟨false, "Failed to create playlist: " ++ e⟩, ?_⟩
      simp only [h]

/-- C3 witness: with track_limit 2, three track ids are rejected with a
track-limit error and no external call; two track ids are posted in one
external call and answered with an envelope. -/
theorem c3_witness :
    create_playlist testClient { title := "t", track_limit := 2 } [1, 2, 3]
      = (.error (.trackLimitExceededError (trackLimitMsg 3 2)), []) ∧
    ∃ r : ApiResponse, create_playlist testClient { title := "t", track_limit := 2 } [1, 2]
      = (.ok r, [⟨"private", "t", [1, 2]⟩]) :=
  ⟨(c3_create_playlist_limit testClient { title := "t", track_limit := 2 } [1, 2, 3]).1
      (by decide),
   (c3_create_playlist_limit testClient { title := "t", track_limit := 2 } [1, 2]).2
      (by decide)⟩

/-- C5: when the requested track_count strictly exceeds the number of
tracks in the base playlist, `create_random_playlist` returns an explicit
failure envelope with the overflow validation message and makes no
external call; when track_count equals the number of available tracks the
overflow check does not fire (the code proceeds — and then fails with the
NameError envelope instead, still with no overflow message). -/
theorem c5_random_overflow_policy (client : Client) (baseId track_count : Int)
    (options : PlaylistCreateOptions) (tracks : List Int)
    (hbase : client.getPlaylistTracks baseId = .ok tracks) :
    (track_count > (tracks.length : Int) →
      create_random_playlist client baseId track_count options
        = (⟨false, randomOverflowMsg track_count tracks.length⟩, [])) ∧
    (track_count = (tracks.length : Int) →
      create_random_playlist client baseId track_count options
        = (⟨false, "Failed to create random playlist: " ++ nameErrorRandomMsg⟩, [])) := by
  have hids : get_track_ids client baseId = .ok tracks := by
    unfold get_track_ids
    rw [hbase]
  constructor
  · intro hgt
    unfold create_random_playlist
    rw [hids]
    simp only [hgt, if_true]
  · intro heq
    subst heq
    unfold create_random_playlist
    rw [hids]
    simp

/-- C5 witness: requesting 6 of playlist 1's 5 tracks yields the overflow
failure envelope with no external call; requesting exactly 5 does not
trigger the overflow check. -/
theorem c5_witness :
    create_random_playlist testClient 1 6 (handlerOptions "R" PlaylistVisibility.priv)
      = (⟨false, randomOverflowMsg 6 5⟩, []) ∧
    create_random_playlist testClient 1 5 (handlerOptions "R" PlaylistVisibility.priv)
      = (⟨false, "Failed to create random playlist: " ++ nameErrorRandomMsg⟩, []) :=
  ⟨(c5_random_overflow_policy testClient 1 6 (handlerOptions "R" PlaylistVisibility.priv)
      [1, 2, 3, 4, 5] rfl).1 (by decide),
   (c5_random_overflow_policy testClient 1 5 (handlerOptions "R" PlaylistVisibility.priv)
      [1, 2, 3, 4, 5] rfl).2 (by decide)⟩

/-- C6: the HTTP boundary maps an invalid-token error to status 401 (and
the endpoint result is then independent of the operation — token
validation runs before the operation), a domain error
(`PlaylistManagerError`, track-limit included) raised by the operation to
status 400, any unclassified error to status 500, and passes a returned
envelope through. -/
theorem c6_http_status_mapping (env : TokenEnv)
    (op op2 : Unit → Except PyError ApiResponse) :
    (∀ m, validate_token_check env = .error (.invalidTokenError m) →
      runEndpoint env op = .httpError 401 m ∧
      runEndpoint env op = runEndpoint env op2) ∧
    (validate_token_check env = .ok () →
      (∀ e, op () = .error e → e.isDomainError = true →
        runEndpoint env op = .httpError 400 e.msg) ∧
      (∀ e, op () = .error e → e.isDomainError = false →
        runEndpoint env op = .httpError 500 e.msg) ∧
      (∀ r, op () = .ok r → runEndpoint env op = .ok r)) := by
  constructor
  · intro m hm
    unfold runEndpoint get_playlist_manager
    rw [hm]
    exact ⟨rfl, rfl⟩
  · intro hok
    unfold runEndpoint get_playlist_manager
    rw [hok]
    refine ⟨?_, ?_, ?_⟩
    · intro e he hd
      simp only [he, hd, if_true]
    · intro e he hd
      simp only [he, hd, Bool.false_eq_true, if_false]
    · intro r hr
      simp only [hr]

/-- C6 witness: an invalid token yields 401 before any operation runs;
with a valid token a track-limit error yields 400, an unclassified error
yields 500, and an envelope passes through. -/
theorem c6_witness :
    (runEndpoint ⟨none, false⟩ (fun _ => Except.ok ⟨true, "ok"⟩)
        = .httpError 401
            ("Failed to validate token: " ++ "Invalid SoundCloud authentication token") ∧
      runEndpoint ⟨none, false⟩ (fun _ => Except.ok ⟨true, "ok"⟩)
        = runEndpoint ⟨none, false⟩
            (fun _ => Except.error (PyError.otherError "boom"))) ∧
    runEndpoint ⟨none, true⟩ (fun _ => Except.error (PyError.trackLimitExceededError "tl"))
      = .httpError 400 "tl" ∧
    runEndpoint ⟨none, true⟩ (fun _ => Except.error (PyError.otherError "unk"))
      = .httpError 500 "unk" ∧
    runEndpoint ⟨none, true⟩ (fun _ => Except.ok ⟨true, "ok"⟩) = .ok ⟨true, "ok"⟩ :=
  ⟨(c6_http_status_mapping ⟨none, false⟩ (fun _ => Except.ok ⟨true, "ok"⟩)
      (fun _ => Except.error (PyError.otherError "boom"))).1 _ rfl,
   ((c6_http_status_mapping ⟨none, true⟩
      (fun _ => Except.error (PyError.trackLimitExceededError "tl"))
      (fun _ => Except.ok ⟨true, "ok"⟩)).2 rfl).1 _ rfl rfl,
   ((c6_http_status_mapping ⟨none, true⟩
      (fun _ => Except.error (PyError.otherError "unk"))
      (fun _ => Except.ok ⟨true, "ok"⟩)).2 rfl).2.1 _ rfl rfl,
   ((c6_http_status_mapping ⟨none, true⟩ (fun _ => Except.ok ⟨true, "ok"⟩)
      (fun _ => Except.ok ⟨true, "ok"⟩)).2 rfl).2.2 _ rfl⟩

/-- C8: `PlaylistCreateOptions` built from a title alone defaults to
private visibility and a track limit of 500; the HTTP handlers build
options from title and visibility only, so their track limit is 500 and a
playlist of more than 500 tracks is rejected with the track-limit error. -/
theorem c8_options_defaults (title : String) (vis : PlaylistVisibility)
    (client : Client) (ids : List Int) :
    ({ title := title } : PlaylistCreateOptions).visibility = PlaylistVisibility.priv ∧
    ({ title := title } : PlaylistCreateOptions).track_limit = 500 ∧
    (handlerOptions title vis).track_limit = 500 ∧
    ((ids.length : Int) > 500 →
      (create_playlist client (handlerOptions title vis) ids).1
        = .error (.trackLimitExceededError (trackLimitMsg ids.length 500))) := by
  refine ⟨rfl, rfl, rfl, ?_⟩
  intro hgt
  have h2 : (ids.length : Int) > (handlerOptions title vis).track_limit := hgt
  unfold create_playlist
  rw [if_pos h2]
  rfl

/-- C8 witness: a handler-built options value rejects 501 tracks. -/
theorem c8_witness :
    (create_playlist testClient (handlerOptions "big" PlaylistVisibility.pub)
        (List.replicate 501 0)).1
      = .error (.trackLimitExceededError
          (trackLimitMsg (List.replicate 501 (0 : Int)).length 500)) :=
  (c8_options_defaults "big" PlaylistVisibility.pub testClient
      (List.replicate 501 0)).2.2.2
    (by rw [List.length_replicate]; norm_num)

/-- C9: the public mutating manager operations flatten every internal
failure into a `{success := false, message}` envelope instead of raising:
a fetch failure or a raised `TrackLimitExceededError` inside
`create_unplayed_tracks_playlist`, `merge_playlists`,
`create_random_playlist` or `delete_playlist` yields a failure envelope
(the operations return `ApiResponse` values in every case by
construction). -/
theorem c9_manager_ops_flatten (client : Client) (options : PlaylistCreateOptions)
    (baseId delId track_count : Int) (playedIds pids : List Int) :
    (∀ e, unplayedTracksOf client baseId playedIds = .error e →
      (create_unplayed_tracks_playlist client baseId playedIds options).1
        = ⟨false, "Failed to create unplayed tracks playlist: " ++ e.msg⟩) ∧
    (∀ l, unplayedTracksOf client baseId playedIds = .ok l →
      (l.length : Int) > options.track_limit →
      (create_unplayed_tracks_playlist client baseId playedIds options).1
        = ⟨false, "Failed to create unplayed tracks playlist: "
            ++ trackLimitMsg l.length options.track_limit⟩) ∧
    (∀ l, mergedTracksOf client pids = .ok l →
      (l.length : Int) > options.track_limit →
      (merge_playlists client pids options).1
        = ⟨false, "playlistTrackLimitExceeded"⟩) ∧
    (∀ e, mergedTracksOf client pids = .error e →
      (merge_playlists client pids options).1.success = false) ∧
    (∀ e, get_track_ids client baseId = .error e →
      (create_random_playlist client baseId track_count options).1
        = ⟨false, "Failed to create random playlist: " ++ e.msg⟩) ∧
    (∀ e, client.deletePlaylistCall delId = .error e →
      (delete_playlist client delId).1
        = ⟨false, "Failed to delete playlist: " ++ e⟩) := by
  refine ⟨?_, ?_, ?_, ?_, ?_, ?_⟩
  · intro e he
    unfold create_unplayed_tracks_playlist
    rw [he]
  · intro l hl hgt
    have hcp : create_playlist client options l
        = (.error (.trackLimitExceededError (trackLimitMsg l.length options.track_limit)), []) := by
      unfold create_playlist
      rw [if_pos hgt]
    unfold create_unplayed_tracks_playlist
    rw [hl]
    simp only [hcp]
    rfl
  · intro l hl hgt
    have hcp : create_playlist client options l
        = (.error (.trackLimitExceededError (trackLimitMsg l.length options.track_limit)), []) := by
      unfold create_playlist
      rw [if_pos hgt]
    unfold merge_playlists
    rw [hl]
    simp only [hcp]
  · intro e he
    unfold merge_playlists
    rw [he]
    cases e <;> rfl
  · intro e he
    unfold create_random_playlist
    rw [he]
  · intro e he
    unfold delete_playlist
    rw [he]

/-- C9 witness: a missing base playlist and an exceeded merge limit are
both flattened into failure envelopes. -/
theorem c9_witness :
    (create_unplayed_tracks_playlist testClient 99 []
        (handlerOptions "t" PlaylistVisibility.priv)).1
      = ⟨false, "Failed to create unplayed tracks playlist: "
          ++ (PyError.playlistManagerError
              ("Failed to get track IDs: " ++ "playlist not found")).msg⟩ ∧
    (merge_playlists testClient [1] { title := "t", track_limit := 1 }).1
      = ⟨false, "playlistTrackLimitExceeded"⟩ :=
  ⟨(c9_manager_ops_flatten testClient (handlerOptions "t" PlaylistVisibility.priv)
      99 0 0 [] []).1 _ rfl,
   (c9_manager_ops_flatten testClient { title := "t", track_limit := 1 }
      0 0 0 [] [1]).2.2.1 [1, 2, 3, 4, 5] rfl (by decide)⟩

/-- C10: because `get_playlists` and `get_tracks` resolve the user with
the truthiness test `user_id or self.get_user().id`, a caller-supplied
user id of 0 behaves exactly like an absent user id: the current
authenticated user's playlists/tracks are returned, not those of user 0. -/
theorem c10_user_id_zero_truthiness (client : Client) :
    get_playlists client (some 0) = get_playlists client none ∧
    get_tracks client (some 0) = get_tracks client none ∧
    (∀ me ps, client.getMeId = .ok me → client.getUserPlaylists me = .ok ps →
      get_playlists client (some 0) = .ok ps) ∧
    (∀ me ts, client.getMeId = .ok me → client.getUserTracks me = .ok ts →
      get_tracks client (some 0) = .ok ts) := by
  have hres : truthyResolve client (some 0) = truthyResolve client none := rfl
  refine ⟨?_, ?_, ?_, ?_⟩
  · unfold get_playlists
    rw [hres]
  · unfold get_tracks
    rw [hres]
  · intro me ps hme hps
    unfold get_playlists
    rw [hres]
    unfold truthyResolve get_user
    rw [hme]
    simp only [hps]
  · intro me ts hme hts
    unfold get_tracks
    rw [hres]
    unfold truthyResolve get_user
    rw [hme]
    simp only [hts]

/-- C10 witness: with the current user 42 owning playlists [101, 102] and
tracks [201], a query for user id 0 returns user 42's playlists and
tracks. -/
theorem c10_witness :
    get_playlists testClient (some 0) = get_playlists testClient none ∧
    get_playlists testClient (some 0) = .ok [101, 102] ∧
    get_tracks testClient (some 0) = .ok [201] :=
  ⟨(c10_user_id_zero_truthiness testClient).1,
   (c10_user_id_zero_truthiness testClient).2.2.1 42 [101, 102] rfl rfl,
   (c10_user_id_zero_truthiness testClient).2.2.2 42 [201] rfl rfl⟩

end SoundcloudApi
